import Mathlib

/-!
Verification of the decision core of `app.py` (Spotify behavior-based
playlist recommender): the rule engine `recommend_playlist` (lines 26-52),
the cluster mapper `map_input_to_cluster` (lines 105-118), and the premium
feature-vector encoding / scoring block (lines 155-219).  All definitions
are a shallow embedding of the Python source; machine strings are modelled
as Lean `String` (a list of characters), Python exceptions as `Except`.
-/

/- ---------------------------------------------------------------------
String helpers, embedding the Python `str` operations used by the source
(`x in s` substring test, `s.lower()`, `s.strip()`, `s.split(',')`).
These operate on the character list of the string so that all claims can
be evaluated by the kernel on concrete inputs.
--------------------------------------------------------------------- -/

/-- `chPre need hay`: `need` is a leading segment of `hay` (character-wise). -/
def chPre : List Char → List Char → Bool
  | [], _ => true
  | _ :: _, [] => false
  | a :: as, b :: bs => a == b && chPre as bs

/-- `chSub need hay`: `need` occurs contiguously inside `hay`; this is the
Python substring test `need in hay` (an empty `need` always matches). -/
def chSub (need : List Char) : List Char → Bool
  | [] => need.isEmpty
  | b :: bs => chPre need (b :: bs) || chSub need bs

/-- Python `need in hay` on strings (substring containment). -/
def hasSub (hay need : String) : Bool := chSub need.data hay.data

/-- Python `s.lower()` (ASCII case folding, the only case the app exercises). -/
def strLower (s : String) : String := String.mk (s.data.map Char.toLower)

/-- Python `s.strip()`: drop leading and trailing whitespace. -/
def strTrim (s : String) : String :=
  String.mk (((s.data.dropWhile Char.isWhitespace).reverse.dropWhile
    Char.isWhitespace).reverse)

/-- Python `s.split(',')` on the character list: always at least one field. -/
def splitComma : List Char → List (List Char)
  | [] => [[]]
  | c :: cs =>
    if c == ',' then [] :: splitComma cs
    else
      match splitComma cs with
      | t :: ts => (c :: t) :: ts
      | [] => [[c]]

/-- Python `s.split(',')` returning strings. -/
def splitCommaStr (s : String) : List String := (splitComma s.data).map String.mk

/- ---------------------------------------------------------------------
RuleMatcher: `playlist_rules` (app.py lines 26-34) and
`recommend_playlist` (app.py lines 36-52).
--------------------------------------------------------------------- -/

/-- One entry of `playlist_rules`: `(time_slots, moods, genres, playlist)`. -/
structure PRule where
  slots : List String
  moods : List String
  genres : List String
  playlist : String
deriving DecidableEq, Repr

/-- app.py lines 26-34: the fixed ordered rule table. -/
def playlist_rules : List PRule :=
  [ ⟨["Morning", "Early Morning"], ["Energetic", "Upbeat"], ["Pop", "EDM", "Dance"],
      "🏃 Morning Workout Mix"⟩,
    ⟨["Morning"], ["Calm", "Focused"], ["Classical", "Ambient"], "☕ Focused Morning"⟩,
    ⟨["Afternoon"], ["Relaxed", "Chill"], ["Lo-fi", "Indie"], "🌤️ Afternoon Chill"⟩,
    ⟨["Evening", "Night"], ["Sadness or melancholy", "Melancholic", "Reflective"],
      ["Acoustic", "Folk"], "🌙 Evening Reflective"⟩,
    ⟨["Night"], ["Excited", "Upbeat"], ["Hip Hop", "Rap", "Pop"], "🌃 Night Out Vibes"⟩,
    ⟨["Any"], ["Any"], ["Podcast"], "🎙️ Popular Podcasts"⟩ ]

/-- app.py line 41: `any(g.lower() in genre.lower() for g in genres) or
"Podcast" in genres and "pod" in genre.lower()`.  Python parses `and`
tighter than `or`, so the expression groups as
`any(...) or ("Podcast" in genres and "pod" in genre.lower())`;
the parentheses below make that grouping explicit. -/
def genreCond (r : PRule) (genre : String) : Bool :=
  r.genres.any (fun g => hasSub (strLower genre) (strLower g))
  || (r.genres.contains "Podcast" && hasSub (strLower genre) "pod")

/-- app.py lines 39-41: the whole per-rule condition.  The outer `if`
(line 39) and the nested `if` (line 41) conjoin. -/
def ruleMatches (r : PRule) (time_slot mood genre : String) : Bool :=
  ((r.slots.contains time_slot || r.slots.contains "Any")
    && (r.moods.contains mood || r.moods.contains "Any"))
  && genreCond r genre

/-- The candidate-match condition as spec §4.1 step 1 words it: time-slot
membership (or wildcard), AND mood membership (or wildcard), AND (some
lowercased keyword is a substring of the lowercased genre text, OR the rule
owns the literal keyword "Podcast" and the lowercased genre text contains
"pod").  Stated independently of `ruleMatches` so the two readings of the
source expression can be compared. -/
def specRuleMatches (r : PRule) (time_slot mood genre : String) : Prop :=
  (time_slot ∈ r.slots ∨ "Any" ∈ r.slots)
  ∧ (mood ∈ r.moods ∨ "Any" ∈ r.moods)
  ∧ ((∃ kw ∈ r.genres, hasSub (strLower genre) (strLower kw) = true)
     ∨ ("Podcast" ∈ r.genres ∧ hasSub (strLower genre) "pod" = true))

/-- app.py lines 45-45: `"workout" in g or "upbeat" in g or "energetic" in g`. -/
def workout_kw (genre : String) : Bool :=
  hasSub (strLower genre) "workout" || hasSub (strLower genre) "upbeat"
    || hasSub (strLower genre) "energetic"

/-- app.py line 47: `"lo-fi" in g or "chill" in g or "indie" in g`. -/
def chill_kw (genre : String) : Bool :=
  hasSub (strLower genre) "lo-fi" || hasSub (strLower genre) "chill"
    || hasSub (strLower genre) "indie"

/-- app.py line 49: `"podcast" in g or "talk" in g`. -/
def podcast_kw (genre : String) : Bool :=
  hasSub (strLower genre) "podcast" || hasSub (strLower genre) "talk"

/-- app.py lines 43-52: keyword fallback chain on the lowercased genre. -/
def genre_fallback (genre : String) : String :=
  if workout_kw genre then "🏃 High Energy Workout"
  else if chill_kw genre then "🌿 Lo-fi & Chill"
  else if podcast_kw genre then "🎧 Podcast Highlights"
  else "🎶 Popular Hits"

/-- app.py lines 36-52 generalized over the rule table: the `for` loop with
`return` on the first match is `List.find?`; on no match the fallback runs. -/
def recommend_playlist_with (rules : List PRule) (time_slot mood genre : String) :
    String :=
  match rules.find? (fun r => ruleMatches r time_slot mood genre) with
  | some r => r.playlist
  | none => genre_fallback genre

/-- app.py `recommend_playlist` with the program's fixed table. -/
def recommend_playlist (time_slot mood genre : String) : String :=
  recommend_playlist_with playlist_rules time_slot mood genre

example : recommend_playlist "Morning" "Energetic" "Pop, EDM" = "🏃 Morning Workout Mix" := by
  decide

example : recommend_playlist "Night" "Excited" "Rap" = "🌃 Night Out Vibes" := by decide

example : recommend_playlist "Afternoon" "Any" "jazz" = "🎶 Popular Hits" := by decide

/- ---------------------------------------------------------------------
ClusterMapper: `map_input_to_cluster` (app.py lines 105-118).  The cluster
table is loaded by `json.load`, so a profile value is a JSON value: a list
(of feature-name strings), an object (feature name → numeric weight), or a
scalar (string / number / boolean / null).  Python dicts iterate in
insertion order, so the table is an association list.
--------------------------------------------------------------------- -/

/-- One JSON profile value.  `pdict` keeps the numeric weights as `Int`
stand-ins: line 113 only ever reads `feats.keys()`, so the weights are
inert and their numeric type is irrelevant.  `pother` is any JSON scalar
(string, number, boolean, null): it is neither a Python `list` nor a
`dict`, and has no `keys()` attribute. -/
inductive ProfileVal where
  | plist : List String → ProfileVal
  | pdict : List (String × Int) → ProfileVal
  | pother : ProfileVal
deriving DecidableEq, Repr

/-- app.py line 113, the scrutinee `feats if isinstance(feats, list) else
feats.keys()`: a list yields its elements, a dict its keys, and anything
else raises `AttributeError` (no `keys` attribute on a JSON scalar). -/
def featNames : ProfileVal → Except String (List String)
  | ProfileVal.plist l => Except.ok l
  | ProfileVal.pdict m => Except.ok (m.map Prod.fst)
  | ProfileVal.pother => Except.error "AttributeError"

/-- app.py line 113: `set([str(f).lower() for f in ...])` (feature names
are already strings, so `str(f)` is the identity on them). -/
def featTokens (names : List String) : Finset String :=
  (names.map strLower).toFinset

/-- app.py lines 107-109: the user token set — lowercased time slot and
mood plus the trimmed lowercased comma-split genre tokens. -/
def userTokens (time_slot mood genre : String) : Finset String :=
  {strLower time_slot, strLower mood} ∪
    ((splitCommaStr genre).map (fun g => strLower (strTrim g))).toFinset

/-- app.py lines 111-117: the scan over the table, carrying
`best_k, best_score` (initialized `None, -1` by the caller); a raised
`AttributeError` aborts the whole call. -/
def mapClusterLoop (ut : Finset String) :
    List (String × ProfileVal) → Option String → Int →
      Except String (Option String × Int)
  | [], best_k, best_score => Except.ok (best_k, best_score)
  | (k, feats) :: rest, best_k, best_score =>
    match featNames feats with
    | Except.error e => Except.error e
    | Except.ok names =>
      let score : Int := ((ut ∩ featTokens names).card : Int)
      if score > best_score then mapClusterLoop ut rest (some k) score
      else mapClusterLoop ut rest best_k best_score

/-- app.py lines 105-118: `map_input_to_cluster`. -/
def map_input_to_cluster (time_slot mood genre : String)
    (cluster_profiles : List (String × ProfileVal)) :
    Except String (Option String × Int) :=
  mapClusterLoop (userTokens time_slot mood genre) cluster_profiles none (-1)

instance {ε α : Type} [DecidableEq ε] [DecidableEq α] : DecidableEq (Except ε α) :=
  fun x y =>
  match x, y with
  | Except.ok a, Except.ok b =>
    if h : a = b then Decidable.isTrue (by rw [h])
    else Decidable.isFalse (by intro hc; cases hc; exact h rfl)
  | Except.error a, Except.error b =>
    if h : a = b then Decidable.isTrue (by rw [h])
    else Decidable.isFalse (by intro hc; cases hc; exact h rfl)
  | Except.ok _, Except.error _ => Decidable.isFalse (by intro hc; cases hc)
  | Except.error _, Except.ok _ => Decidable.isFalse (by intro hc; cases hc)

/-- A profile value the loop can process without raising (list or dict). -/
def wfVal : ProfileVal → Bool
  | ProfileVal.pother => false
  | _ => true

/-- Total rendering of the feature names: a scalar contributes nothing.
Only used in statements; agrees with `featNames` on well-formed values. -/
def featNamesTotal : ProfileVal → List String
  | ProfileVal.plist l => l
  | ProfileVal.pdict m => m.map Prod.fst
  | ProfileVal.pother => []

/-- Overlap score of one profile value against the user token set. -/
def scoreVal (ut : Finset String) (v : ProfileVal) : Nat :=
  (ut ∩ featTokens (featNamesTotal v)).card

/-- The pure per-entry step of the scan (strict `>` update), used to state
what the loop computes on well-formed tables. -/
def bestStep (ut : Finset String) (acc : Option String × Int)
    (e : String × ProfileVal) : Option String × Int :=
  if ((scoreVal ut e.2 : Int)) > acc.2 then (some e.1, (scoreVal ut e.2 : Int))
  else acc

example :
    map_input_to_cluster "Morning" "Calm" "Pop"
      [("0", ProfileVal.plist ["pop"]), ("1", ProfileVal.plist ["pop"])]
      = Except.ok (some "0", 1) := by decide

example :
    map_input_to_cluster "Morning" "Any" "Pop" [("0", ProfileVal.pother)]
      = Except.error "AttributeError" := by decide

example : map_input_to_cluster "Morning" "Any" "Pop" [] = Except.ok (none, -1) := by
  decide

/- ---------------------------------------------------------------------
FeatureEncoder and Scorer: the premium prediction block
(app.py lines 155-219).
--------------------------------------------------------------------- -/

/-- app.py lines 186-206: the 5-position binary feature vector built from
the five (already string-valued) inputs, in source order: mood flag, morning
flag, pop flag, daily-podcast flag, female flag.  The source's
`str(x or "")` only canonicalizes `None`; on strings it is the identity. -/
def encode (user_mood user_time user_genre user_podcast user_gender : String) :
    List Nat :=
  [ if (["energetic", "upbeat", "happy", "party"]).any
        (fun token => hasSub (strLower user_mood) token) then 1 else 0,
    if hasSub (strLower user_time) "morning" then 1 else 0,
    if hasSub (strLower user_genre) "pop" then 1 else 0,
    if hasSub (strLower user_podcast) "daily" then 1 else 0,
    if hasSub (strLower user_gender) "female" then 1 else 0 ]

/-- Python `try: x = NAME except Exception: x = fallback` at module level:
yields the bound value when `NAME` is a bound module name, else the
fallback (the `NameError` is swallowed). -/
def tryName (env : List (String × String)) (name fallback : String) : String :=
  match env.lookup name with
  | some v => v
  | none => fallback

/-- The string-valued widget bindings in scope at app.py line 157.  The
module binds `time_slot` (line 59) but never any name `time`: `time` is
neither imported nor assigned anywhere in app.py, so the lookup of `time`
on line 163 fails. -/
def widget_env (time_slot mood genre podcast_freq gender : String) :
    List (String × String) :=
  [("age", "20-35"), ("gender", gender), ("time_slot", time_slot),
   ("mood", mood), ("genre", genre), ("podcast_freq", podcast_freq)]

/-- app.py lines 157-208: the feature vector the deployed module actually
scores — each `user_*` variable is fetched by name with a fallback
(lines 157-180: `mood`, `time`, `genre`, `podcast_freq`, `gender` with
fallbacks "Any", "Any", "", "Never", "Other") and then encoded
(lines 186-206). -/
def premium_feature_vector (time_slot mood genre podcast_freq gender : String) :
    List Nat :=
  encode
    (tryName (widget_env time_slot mood genre podcast_freq gender) "mood" "Any")
    (tryName (widget_env time_slot mood genre podcast_freq gender) "time" "Any")
    (tryName (widget_env time_slot mood genre podcast_freq gender) "genre" "")
    (tryName (widget_env time_slot mood genre podcast_freq gender) "podcast_freq" "Never")
    (tryName (widget_env time_slot mood genre podcast_freq gender) "gender" "Other")

example : premium_feature_vector "Morning" "Energetic" "Pop" "Daily" "Female"
    = [1, 0, 1, 1, 1] := by decide

example : encode "Energetic" "Morning" "Pop" "Daily" "Female" = [1, 1, 1, 1, 1] := by
  decide

/-- The loaded classifier: `probaFn` is present iff
`hasattr(premium_model, "predict_proba")`; `predictFn` iff the model has a
`predict` attribute.  A call either returns rows or raises (`Except.error`).
`α` is the numeric payload type (probabilities / class labels), on which the
scoring block performs no arithmetic that matters here. -/
structure PyClassifier (α : Type) where
  probaFn : Option (List Nat → Except String (List (List α)))
  predictFn : Option (List Nat → Except String (List α))

/-- Outcome of app.py lines 210-219: a probability (`predict_proba` path,
line 213-214), a raw class label (`predict` path, lines 216-217), or the
"could not score" info message of lines 218-219. -/
inductive ScoreResult (α : Type) where
  | probability : α → ScoreResult α
  | classLabel : α → ScoreResult α
  | unavailable : String → ScoreResult α
deriving DecidableEq, Repr

/-- app.py lines 210-219: the whole scoring `try` block.  Any exception —
from the call itself, from the `[0][1]` / `[0]` indexing (shape mismatch),
or the `AttributeError` of calling a missing `predict` — lands in the
`except` arm, i.e. `unavailable`. -/
def scoreModel {α : Type} (c : PyClassifier α) (fv : List Nat) : ScoreResult α :=
  match c.probaFn with
  | some f =>
    match f fv with
    | Except.error e => ScoreResult.unavailable e
    | Except.ok rows =>
      match rows[0]? with
      | none => ScoreResult.unavailable "IndexError"
      | some row =>
        match row[1]? with
        | none => ScoreResult.unavailable "IndexError"
        | some p => ScoreResult.probability p
  | none =>
    match c.predictFn with
    | some f =>
      match f fv with
      | Except.error e => ScoreResult.unavailable e
      | Except.ok preds =>
        match preds[0]? with
        | none => ScoreResult.unavailable "IndexError"
        | some p => ScoreResult.classLabel p
    | none => ScoreResult.unavailable "AttributeError"

example :
    scoreModel (PyClassifier.mk (some (fun _ => Except.ok [[3, 7]])) none) [1, 0, 1, 1, 1]
      = ScoreResult.probability 7 := rfl

example :
    scoreModel (PyClassifier.mk (Option.none) (Option.none) : PyClassifier Nat) [1]
      = ScoreResult.unavailable "AttributeError" := rfl

/- ---------------------------------------------------------------------
Lemmas about the cluster-mapping scan.
--------------------------------------------------------------------- -/

lemma featNames_wf (v : ProfileVal) (hv : wfVal v = true) :
    featNames v = Except.ok (featNamesTotal v) := by
  cases v with
  | plist l => rfl
  | pdict m => rfl
  | pother => simp [wfVal] at hv

/-- On a table without scalar entries the scan never raises and computes
the left fold of `bestStep`. -/
lemma mapClusterLoop_wf (ut : Finset String) :
    ∀ (l : List (String × ProfileVal)), (∀ e ∈ l, wfVal e.2 = true) →
    ∀ (bk : Option String) (bs : Int),
      mapClusterLoop ut l bk bs = Except.ok (l.foldl (bestStep ut) (bk, bs)) := by
  intro l
  induction l with
  | nil => intro _ bk bs; rfl
  | cons a t ih =>
    intro hwf bk bs
    obtain ⟨k, v⟩ := a
    have hv : wfVal v = true := hwf (k, v) (by simp)
    have hrest : ∀ e ∈ t, wfVal e.2 = true := fun e he => hwf e (by simp [he])
    cases v with
    | plist names =>
      show mapClusterLoop ut ((k, ProfileVal.plist names) :: t) bk bs = _
      rw [mapClusterLoop]
      simp only [featNames]
      by_cases h : ((ut ∩ featTokens names).card : Int) > bs
      · rw [if_pos h, ih hrest]
        congr 1
        simp [List.foldl_cons, bestStep, scoreVal, featNamesTotal, h]
      · rw [if_neg h, ih hrest]
        congr 1
        simp [List.foldl_cons, bestStep, scoreVal, featNamesTotal, h]
    | pdict m =>
      show mapClusterLoop ut ((k, ProfileVal.pdict m) :: t) bk bs = _
      rw [mapClusterLoop]
      simp only [featNames]
      by_cases h : ((ut ∩ featTokens (m.map Prod.fst)).card : Int) > bs
      · rw [if_pos h, ih hrest]
        congr 1
        simp [List.foldl_cons, bestStep, scoreVal, featNamesTotal, h]
      · rw [if_neg h, ih hrest]
        congr 1
        simp [List.foldl_cons, bestStep, scoreVal, featNamesTotal, h]
    | pother => simp [wfVal] at hv

/-- What the fold computes: either no entry beats the accumulator and it is
returned unchanged, or the result is the first entry attaining the maximal
score — every earlier entry scores strictly less, every entry at most. -/
lemma foldBest_spec (ut : Finset String) :
    ∀ (l : List (String × ProfileVal)) (acc : Option String × Int),
      (List.foldl (bestStep ut) acc l = acc
        ∧ ∀ e ∈ l, ((scoreVal ut e.2 : Int) ≤ acc.2))
      ∨ (∃ pre e post, l = pre ++ e :: post
          ∧ List.foldl (bestStep ut) acc l = (some e.1, (scoreVal ut e.2 : Int))
          ∧ acc.2 < (scoreVal ut e.2 : Int)
          ∧ (∀ e₁ ∈ pre, (scoreVal ut e₁.2 : Int) < (scoreVal ut e.2 : Int))
          ∧ (∀ e₁ ∈ l, (scoreVal ut e₁.2 : Int) ≤ (scoreVal ut e.2 : Int))) := by
  intro l
  induction l with
  | nil =>
    intro acc; left
    exact ⟨rfl, by intro e he; cases he⟩
  | cons a t ih =>
    intro acc
    by_cases h : acc.2 < ((scoreVal ut a.2 : Int))
    · have hstep : List.foldl (bestStep ut) acc (a :: t)
          = List.foldl (bestStep ut) (some a.1, (scoreVal ut a.2 : Int)) t := by
        simp [List.foldl_cons, bestStep, h]
      rcases ih (some a.1, (scoreVal ut a.2 : Int)) with
        ⟨heq, hall⟩ | ⟨pre, e, post, hsplit, hres, hgt, hpre, hle⟩
      · right
        refine ⟨[], a, t, rfl, ?_, h, ?_, ?_⟩
        · rw [hstep, heq]
        · intro e₁ he₁; cases he₁
        · intro e₁ he₁
          rcases List.mem_cons.mp he₁ with rfl | hmem
          · exact le_refl _
          · exact hall e₁ hmem
      · right
        have hgt₂ : (scoreVal ut a.2 : Int) < (scoreVal ut e.2 : Int) := hgt
        refine ⟨a :: pre, e, post, by simp [hsplit], by rw [hstep, hres],
          lt_trans h hgt₂, ?_, ?_⟩
        · intro e₁ he₁
          rcases List.mem_cons.mp he₁ with rfl | hmem
          · exact hgt₂
          · exact hpre e₁ hmem
        · intro e₁ he₁
          rcases List.mem_cons.mp he₁ with rfl | hmem
          · exact le_of_lt hgt₂
          · exact hle e₁ hmem
    · have hstep : List.foldl (bestStep ut) acc (a :: t)
          = List.foldl (bestStep ut) acc t := by
        simp [List.foldl_cons, bestStep, h]
      rcases ih acc with ⟨heq, hall⟩ | ⟨pre, e, post, hsplit, hres, hgt, hpre, hle⟩
      · left
        refine ⟨by rw [hstep, heq], ?_⟩
        intro e₁ he₁
        rcases List.mem_cons.mp he₁ with rfl | hmem
        · exact not_lt.mp h
        · exact hall e₁ hmem
      · right
        refine ⟨a :: pre, e, post, by simp [hsplit], by rw [hstep, hres], hgt, ?_, ?_⟩
        · intro e₁ he₁
          rcases List.mem_cons.mp he₁ with rfl | hmem
          · exact lt_of_le_of_lt (not_lt.mp h) hgt
          · exact hpre e₁ hmem
        · intro e₁ he₁
          rcases List.mem_cons.mp he₁ with rfl | hmem
          · exact le_of_lt (lt_of_le_of_lt (not_lt.mp h) hgt)
          · exact hle e₁ hmem

/-- Master specification of `map_input_to_cluster` on a non-empty table of
list/dict profile values: it returns (without raising) the first entry of
maximal overlap score. -/
lemma map_spec (t m g : String) (table : List (String × ProfileVal))
    (hwf : ∀ e ∈ table, wfVal e.2 = true) (hne : table ≠ []) :
    ∃ pre kv post, table = pre ++ kv :: post
      ∧ map_input_to_cluster t m g table
          = Except.ok (some kv.1, (scoreVal (userTokens t m g) kv.2 : Int))
      ∧ (∀ e ∈ pre,
          (scoreVal (userTokens t m g) e.2 : Int) < (scoreVal (userTokens t m g) kv.2 : Int))
      ∧ (∀ e ∈ table,
          (scoreVal (userTokens t m g) e.2 : Int) ≤ (scoreVal (userTokens t m g) kv.2 : Int)) := by
  have hrun := mapClusterLoop_wf (userTokens t m g) table hwf none (-1)
  rcases foldBest_spec (userTokens t m g) table (none, -1) with
    ⟨heq, hall⟩ | ⟨pre, e, post, hsplit, hres, _, hpre, hle⟩
  · obtain ⟨a, rest, rfl⟩ := List.exists_cons_of_ne_nil hne
    have h₁ := hall a (by simp)
    have h₂ : (0 : Int) ≤ (scoreVal (userTokens t m g) a.2 : Int) := Int.natCast_nonneg _
    omega
  · refine ⟨pre, e, post, hsplit, ?_, hpre, hle⟩
    rw [map_input_to_cluster, hrun, hres]

/-- A scalar profile value raises as soon as the scan reaches it, whatever
came before (provided the earlier entries themselves did not raise). -/
lemma mapClusterLoop_err (ut : Finset String) :
    ∀ (pre : List (String × ProfileVal)), (∀ e ∈ pre, wfVal e.2 = true) →
    ∀ (k : String) (post : List (String × ProfileVal)) (bk : Option String) (bs : Int),
      mapClusterLoop ut (pre ++ (k, ProfileVal.pother) :: post) bk bs
        = Except.error "AttributeError" := by
  intro pre
  induction pre with
  | nil => intro _ k post bk bs; rfl
  | cons a t ih =>
    intro hwf k post bk bs
    obtain ⟨k₀, v₀⟩ := a
    have hv : wfVal v₀ = true := hwf (k₀, v₀) (by simp)
    have hrest : ∀ e ∈ t, wfVal e.2 = true := fun e he => hwf e (by simp [he])
    cases v₀ with
    | plist names =>
      show mapClusterLoop ut ((k₀, ProfileVal.plist names) :: (t ++ _)) bk bs = _
      rw [mapClusterLoop]
      simp only [featNames]
      by_cases h : ((ut ∩ featTokens names).card : Int) > bs
      · rw [if_pos h]; exact ih hrest k post _ _
      · rw [if_neg h]; exact ih hrest k post _ _
    | pdict mm =>
      show mapClusterLoop ut ((k₀, ProfileVal.pdict mm) :: (t ++ _)) bk bs = _
      rw [mapClusterLoop]
      simp only [featNames]
      by_cases h : ((ut ∩ featTokens (mm.map Prod.fst)).card : Int) > bs
      · rw [if_pos h]; exact ih hrest k post _ _
      · rw [if_neg h]; exact ih hrest k post _ _
    | pother => simp [wfVal] at hv

/-- `recommend_playlist_with` returns the label of the first rule whose
condition holds (first-match-wins over the rule table). -/
lemma recommend_first_match (rules : List PRule) (t m g : String)
    (pre : List PRule) (r : PRule) (post : List PRule)
    (hsplit : rules = pre ++ r :: post)
    (hr : ruleMatches r t m g = true)
    (hpre : ∀ r₁ ∈ pre, ruleMatches r₁ t m g = false) :
    recommend_playlist_with rules t m g = r.playlist := by
  subst hsplit
  induction pre with
  | nil =>
    have hfind : List.find? (fun r₁ => ruleMatches r₁ t m g) ([] ++ r :: post)
        = some r := by
      rw [List.nil_append]
      exact List.find?_cons_of_pos _ hr
    unfold recommend_playlist_with
    rw [hfind]
  | cons a pre ih =>
    have ha : ruleMatches a t m g = false := hpre a (by simp)
    have hfind : List.find? (fun r₁ => ruleMatches r₁ t m g) ((a :: pre) ++ r :: post)
        = List.find? (fun r₁ => ruleMatches r₁ t m g) (pre ++ r :: post) := by
      rw [List.cons_append]
      exact List.find?_cons_of_neg _ (by simp [ha])
    have ih₁ := ih (fun r₁ h₁ => hpre r₁ (by simp [h₁]))
    unfold recommend_playlist_with at ih₁ ⊢
    rw [hfind]
    exact ih₁

/- ---------------------------------------------------------------------
Claim theorems.
--------------------------------------------------------------------- -/

/-- C1 (code bug): the claim says position 1 of the encoded vector is 1
exactly when the caller's lowercased time slot contains "morning", with
`encode("Energetic","Morning","Pop","Daily","Female") = [1,1,1,1,1]`.  The
encoder of lines 186-206 does satisfy this, but the deployed module never
feeds it the widget time slot: line 163 reads the unbound name `time`, so
the fallback "Any" is always used and position 1 is always 0.  At the
failing input the module produces `[1,0,1,1,1]` although the lowercased
time slot "Morning" does contain "morning". -/
theorem c1_position1_evaluation :
    premium_feature_vector "Morning" "Energetic" "Pop" "Daily" "Female" = [1, 0, 1, 1, 1]
    ∧ encode "Energetic" "Morning" "Pop" "Daily" "Female" = [1, 1, 1, 1, 1]
    ∧ encode "Calm" "Evening" "Jazz" "Never" "Male" = [0, 0, 0, 0, 0]
    ∧ hasSub (strLower "Morning") "morning" = true := by decide

/-- C2 counterexample: a cluster table with one scalar (neither list nor
mapping) profile value makes `map_input_to_cluster` raise `AttributeError`
(line 113 calls `.keys()` on the value); the call does not complete, so the
entry is not treated as an empty feature set. -/
theorem c2_scalar_profile_raises :
    map_input_to_cluster "Morning" "Any" "Pop" [("0", ProfileVal.pother)]
      = Except.error "AttributeError" := by decide

/-- C2 amended: for every cluster table, as soon as the scan reaches an
entry whose profile value is neither a list nor a mapping (all earlier
entries being lists or mappings), the map operation raises `AttributeError`
and aborts — the malformed entry is never treated as an empty feature set
and no result is returned. -/
theorem c2_amended_scalar_aborts (t m g k : String)
    (pre post : List (String × ProfileVal))
    (hwf : ∀ e ∈ pre, wfVal e.2 = true) :
    map_input_to_cluster t m g (pre ++ (k, ProfileVal.pother) :: post)
      = Except.error "AttributeError" :=
  mapClusterLoop_err (userTokens t m g) pre hwf k post none (-1)

/-- Witness for `c2_amended_scalar_aborts` at a concrete table whose first
entry is a list and whose second entry is a scalar. -/
theorem c2_amended_scalar_aborts_witness :
    map_input_to_cluster "Evening" "Calm" "Jazz"
      ([("0", ProfileVal.plist ["jazz"])] ++ ("1", ProfileVal.pother) :: [])
      = Except.error "AttributeError" :=
  c2_amended_scalar_aborts "Evening" "Calm" "Jazz" "1"
    [("0", ProfileVal.plist ["jazz"])] [] (by decide)

/-- C3: the rule condition of lines 39-41 agrees with the spec's reading of
the genre expression — the "Podcast"/"pod" special case is an alternative
to the keyword-substring test (Python parses `and` tighter than `or`), not
conjoined with it. -/
theorem c3_genre_precedence (r : PRule) (t m g : String) :
    ruleMatches r t m g = true ↔ specRuleMatches r t m g := by
  simp [ruleMatches, genreCond, specRuleMatches, List.any_eq_true,
    List.contains, List.elem_iff, and_assoc]

/-- C4: `recommend_playlist` is a total function of its three string inputs
(the embedding has no failing operation, mirroring that the source performs
only list membership and substring tests), and the returned label is always
a non-empty string. -/
theorem c4_recommend_nonempty (t m g : String) :
    0 < (recommend_playlist t m g).length := by
  unfold recommend_playlist recommend_playlist_with
  cases hf : playlist_rules.find? (fun r => ruleMatches r t m g) with
  | some r =>
    have hmem := List.mem_of_find?_eq_some hf
    simp only []
    fin_cases hmem <;> decide
  | none =>
    simp only []
    unfold genre_fallback
    split_ifs <;> decide

/-- C5: on a table of list/mapping profile values, the mapper returns
`(none, -1)` exactly when the table is empty, and on a non-empty table it
returns some cluster id with a score ≥ 0. -/
theorem c5_map_empty_iff (t m g : String) (table : List (String × ProfileVal))
    (hwf : ∀ e ∈ table, wfVal e.2 = true) :
    (map_input_to_cluster t m g table = Except.ok (none, -1) ↔ table = [])
    ∧ (table ≠ [] → ∃ k s,
        map_input_to_cluster t m g table = Except.ok (some k, s) ∧ 0 ≤ s) := by
  by_cases hne : table = []
  · subst hne
    refine ⟨by simp [map_input_to_cluster, mapClusterLoop], fun h => absurd rfl h⟩
  · obtain ⟨pre, kv, post, hsplit, hmap, hpre, hle⟩ := map_spec t m g table hwf hne
    refine ⟨⟨fun hok => ?_, fun h => absurd h hne⟩,
      fun _ => ⟨kv.1, _, hmap, Int.natCast_nonneg _⟩⟩
    rw [hmap] at hok
    simp at hok

/-- Witness for `c5_map_empty_iff` on a concrete one-entry table. -/
theorem c5_map_empty_iff_witness :
    (map_input_to_cluster "Morning" "Calm" "Pop" [("0", ProfileVal.plist ["pop"])]
        = Except.ok (none, -1)
      ↔ [("0", ProfileVal.plist ["pop"])] = ([] : List (String × ProfileVal)))
    ∧ (∃ k s, map_input_to_cluster "Morning" "Calm" "Pop"
        [("0", ProfileVal.plist ["pop"])] = Except.ok (some k, s) ∧ 0 ≤ s) :=
  ⟨(c5_map_empty_iff "Morning" "Calm" "Pop" [("0", ProfileVal.plist ["pop"])]
      (by decide)).1,
   (c5_map_empty_iff "Morning" "Calm" "Pop" [("0", ProfileVal.plist ["pop"])]
      (by decide)).2 (by decide)⟩

/-- C6: the scan replaces the running best only under strict `>`, so the
returned cluster is the first entry attaining the maximal overlap score —
every entry before it scores strictly less and every entry scores at most
the returned score.  In particular two clusters with equal (even nonzero)
overlap resolve to the one appearing first in table order. -/
theorem c6_tie_break (t m g k : String) (s : Int)
    (table : List (String × ProfileVal))
    (hwf : ∀ e ∈ table, wfVal e.2 = true)
    (hres : map_input_to_cluster t m g table = Except.ok (some k, s)) :
    ∃ pre v post, table = pre ++ (k, v) :: post
      ∧ (scoreVal (userTokens t m g) v : Int) = s
      ∧ (∀ e ∈ pre, (scoreVal (userTokens t m g) e.2 : Int) < s)
      ∧ (∀ e ∈ table, (scoreVal (userTokens t m g) e.2 : Int) ≤ s) := by
  have hne : table ≠ [] := by
    intro h
    subst h
    simp [map_input_to_cluster, mapClusterLoop] at hres
  obtain ⟨pre, kv, post, hsplit, hmap, hpre, hle⟩ := map_spec t m g table hwf hne
  rw [hmap] at hres
  have hinj : kv.1 = k ∧ (scoreVal (userTokens t m g) kv.2 : Int) = s := by
    simpa using hres
  obtain ⟨hk, hs⟩ := hinj
  subst hk
  subst hs
  exact ⟨pre, kv.2, post, hsplit, rfl, hpre, hle⟩

/-- Witness for `c6_tie_break`: two clusters both overlap the user tokens
in exactly the token "pop"; the mapper reports cluster "0", the earlier of
the two, with the tie score 1. -/
theorem c6_tie_break_witness :
    ∃ pre v post,
      [("0", ProfileVal.plist ["pop"]), ("1", ProfileVal.plist ["pop"])]
        = pre ++ ("0", v) :: post
      ∧ (scoreVal (userTokens "Morning" "Calm" "Pop") v : Int) = 1
      ∧ (∀ e ∈ pre, (scoreVal (userTokens "Morning" "Calm" "Pop") e.2 : Int) < 1)
      ∧ (∀ e ∈ [("0", ProfileVal.plist ["pop"]), ("1", ProfileVal.plist ["pop"])],
          (scoreVal (userTokens "Morning" "Calm" "Pop") e.2 : Int) ≤ 1) :=
  c6_tie_break "Morning" "Calm" "Pop" "0" 1
    [("0", ProfileVal.plist ["pop"]), ("1", ProfileVal.plist ["pop"])]
    (by decide) (by decide)

/-- C7: first-match-wins — the recommender returns the label of the first
rule (in table order) whose condition holds; and rule order is observable:
there is a broad "Any"-wildcard rule, a more specific rule and an input on
which the two orderings of the same two rules return different labels. -/
theorem c7_first_match_wins :
    (∀ (rules : List PRule) (t m g : String) (pre : List PRule) (r : PRule)
        (post : List PRule),
      rules = pre ++ r :: post →
      ruleMatches r t m g = true →
      (∀ r₁ ∈ pre, ruleMatches r₁ t m g = false) →
      recommend_playlist_with rules t m g = r.playlist)
    ∧ (∃ broad specific : PRule, ∃ t m g : String,
        broad.slots = ["Any"] ∧ broad.moods = ["Any"] ∧
        recommend_playlist_with [broad, specific] t m g
          ≠ recommend_playlist_with [specific, broad] t m g) := by
  refine ⟨recommend_first_match, ?_⟩
  refine ⟨⟨["Any"], ["Any"], ["Pop"], "Broad"⟩,
    ⟨["Morning"], ["Calm"], ["Pop"], "Specific"⟩, "Morning", "Calm", "Pop",
    rfl, rfl, ?_⟩
  decide

/-- Witness for `c7_first_match_wins`: with the specific rule listed first,
the specific label is returned even though the broad wildcard rule also
matches. -/
theorem c7_first_match_wins_witness :
    recommend_playlist_with
      [⟨["Morning"], ["Calm"], ["Pop"], "Specific"⟩,
       ⟨["Any"], ["Any"], ["Pop"], "Broad"⟩]
      "Morning" "Calm" "Pop" = "Specific" :=
  c7_first_match_wins.1 _ "Morning" "Calm" "Pop" []
    ⟨["Morning"], ["Calm"], ["Pop"], "Specific"⟩
    [⟨["Any"], ["Any"], ["Pop"], "Broad"⟩] rfl (by decide) (by decide)

/-- C8: an empty genre text matches no rule's genre condition and no
fallback keyword, so the recommender returns "🎶 Popular Hits" for every
time slot and mood; and when no rule matches, the fallback keyword groups
are consulted in the fixed order workout-group, chill-group, podcast-group,
default. -/
theorem c8_fallback_chain (t m g : String) :
    recommend_playlist t m "" = "🎶 Popular Hits"
    ∧ (playlist_rules.find? (fun r => ruleMatches r t m g) = none →
        ((workout_kw g = true → recommend_playlist t m g = "🏃 High Energy Workout")
        ∧ (workout_kw g = false → chill_kw g = true →
            recommend_playlist t m g = "🌿 Lo-fi & Chill")
        ∧ (workout_kw g = false → chill_kw g = false → podcast_kw g = true →
            recommend_playlist t m g = "🎧 Podcast Highlights")
        ∧ (workout_kw g = false → chill_kw g = false → podcast_kw g = false →
            recommend_playlist t m g = "🎶 Popular Hits"))) := by
  constructor
  · have hnone : playlist_rules.find? (fun r => ruleMatches r t m "") = none := by
      rw [List.find?_eq_none]
      intro r hr
      have hg : genreCond r "" = false := by
        simp [playlist_rules, List.mem_cons] at hr
        rcases hr with rfl | rfl | rfl | rfl | rfl | rfl <;> decide
      simp [ruleMatches, hg]
    unfold recommend_playlist recommend_playlist_with
    rw [hnone]
    decide
  · intro hnone
    have hred : recommend_playlist t m g = genre_fallback g := by
      unfold recommend_playlist recommend_playlist_with
      rw [hnone]
    refine ⟨fun h₁ => ?_, fun h₁ h₂ => ?_, fun h₁ h₂ h₃ => ?_, fun h₁ h₂ h₃ => ?_⟩
    · rw [hred]; simp [genre_fallback, h₁]
    · rw [hred]; simp [genre_fallback, h₁, h₂]
    · rw [hred]; simp [genre_fallback, h₁, h₂, h₃]
    · rw [hred]; simp [genre_fallback, h₁, h₂, h₃]

/-- Witness for `c8_fallback_chain`: at ("Afternoon", "Calm") no rule
matches; the empty genre yields the default and genre "workout" yields the
workout fallback. -/
theorem c8_fallback_chain_witness :
    recommend_playlist "Afternoon" "Calm" "" = "🎶 Popular Hits"
    ∧ recommend_playlist "Afternoon" "Calm" "workout" = "🏃 High Energy Workout" :=
  ⟨(c8_fallback_chain "Afternoon" "Calm" "workout").1,
   ((c8_fallback_chain "Afternoon" "Calm" "workout").2 (by decide)).1 (by decide)⟩

/-- C9: scoring policy of lines 210-219 — with a probability capability the
result is the probability at row 0, index 1 of the output; without it the
raw predicted class at index 0; and every failure during scoring lands in
the except arm as an unavailable result: both capabilities absent, the
probability call raising, the probability output too short for `[0][1]`,
the predict call raising, or the predict output too short for `[0]` (the
scoring function is total: nothing propagates). -/
theorem c9_scoring_policy (α : Type) (c : PyClassifier α) (fv : List Nat) :
    (∀ f rows row p, c.probaFn = some f → f fv = Except.ok rows →
        rows[0]? = some row → row[1]? = some p →
        scoreModel c fv = ScoreResult.probability p)
    ∧ (∀ f preds p, c.probaFn = none → c.predictFn = some f →
        f fv = Except.ok preds → preds[0]? = some p →
        scoreModel c fv = ScoreResult.classLabel p)
    ∧ (c.probaFn = none → c.predictFn = none →
        ∃ e, scoreModel c fv = ScoreResult.unavailable e)
    ∧ (∀ f e, c.probaFn = some f → f fv = Except.error e →
        scoreModel c fv = ScoreResult.unavailable e)
    ∧ (∀ f rows, c.probaFn = some f → f fv = Except.ok rows →
        (rows[0]? = none ∨ ∃ row, rows[0]? = some row ∧ row[1]? = none) →
        ∃ e, scoreModel c fv = ScoreResult.unavailable e)
    ∧ (∀ f e, c.probaFn = none → c.predictFn = some f → f fv = Except.error e →
        scoreModel c fv = ScoreResult.unavailable e)
    ∧ (∀ f preds, c.probaFn = none → c.predictFn = some f →
        f fv = Except.ok preds → preds[0]? = none →
        ∃ e, scoreModel c fv = ScoreResult.unavailable e) := by
  refine ⟨?_, ?_, ?_, ?_, ?_, ?_, ?_⟩
  · intro f rows row p hp hf hr hrow
    simp [scoreModel, hp, hf, hr, hrow]
  · intro f preds p hp hpred hf hpr
    simp [scoreModel, hp, hpred, hf, hpr]
  · intro hp hpred
    exact ⟨"AttributeError", by simp [scoreModel, hp, hpred]⟩
  · intro f e hp hf
    simp [scoreModel, hp, hf]
  · intro f rows hp hf hcase
    rcases hcase with h₀ | ⟨row, h₀, h₁⟩
    · exact ⟨"IndexError", by simp [scoreModel, hp, hf, h₀]⟩
    · exact ⟨"IndexError", by simp [scoreModel, hp, hf, h₀, h₁]⟩
  · intro f e hp hpred hf
    simp [scoreModel, hp, hpred, hf]
  · intro f preds hp hpred hf h₀
    exact ⟨"IndexError", by simp [scoreModel, hp, hpred, hf, h₀]⟩

/-- Witness for `c9_scoring_policy`: a two-class probability output yields
its index-1 entry; a classifier with neither capability yields an
unavailable result; and a predict-only classifier whose call raises also
yields an unavailable result carrying that failure. -/
theorem c9_scoring_policy_witness :
    scoreModel (PyClassifier.mk (some (fun _ => Except.ok [[3, 7]])) none)
      [1, 0, 1, 1, 1] = ScoreResult.probability 7
    ∧ (∃ e, scoreModel (PyClassifier.mk Option.none Option.none : PyClassifier Nat)
        [1, 0, 1, 1, 1] = ScoreResult.unavailable e)
    ∧ scoreModel
        (PyClassifier.mk Option.none (some (fun _ => Except.error "ValueError"))
          : PyClassifier Nat)
        [1, 0, 1, 1, 1] = ScoreResult.unavailable "ValueError" :=
  ⟨(c9_scoring_policy Nat (PyClassifier.mk (some (fun _ => Except.ok [[3, 7]])) none)
      [1, 0, 1, 1, 1]).1 _ [[3, 7]] [3, 7] 7 rfl rfl rfl rfl,
   (c9_scoring_policy Nat (PyClassifier.mk Option.none Option.none)
      [1, 0, 1, 1, 1]).2.2.1 rfl rfl,
   (c9_scoring_policy Nat
      (PyClassifier.mk Option.none (some (fun _ => Except.error "ValueError")))
      [1, 0, 1, 1, 1]).2.2.2.2.2.1 _ "ValueError" rfl rfl rfl⟩

/-- C10 (implicit invariant): on every non-empty table of list/mapping
profile values the mapper succeeds, the returned id is a key of the table,
and the score lies between 0 and the number of user tokens. -/
theorem c10_map_invariant (t m g : String) (table : List (String × ProfileVal))
    (hwf : ∀ e ∈ table, wfVal e.2 = true) (hne : table ≠ []) :
    ∃ k s, map_input_to_cluster t m g table = Except.ok (some k, s)
      ∧ (∃ v, (k, v) ∈ table)
      ∧ 0 ≤ s ∧ s ≤ ((userTokens t m g).card : Int) := by
  obtain ⟨pre, kv, post, hsplit, hmap, hpre, hle⟩ := map_spec t m g table hwf hne
  refine ⟨kv.1, _, hmap, ⟨kv.2, ?_⟩, Int.natCast_nonneg _, ?_⟩
  · rw [hsplit]
    exact List.mem_append_right _ (List.mem_cons_self _ _)
  · have hb : scoreVal (userTokens t m g) kv.2 ≤ (userTokens t m g).card :=
      Finset.card_le_card Finset.inter_subset_left
    exact_mod_cast hb

/-- Witness for `c10_map_invariant` on a concrete one-entry table. -/
theorem c10_map_invariant_witness :
    ∃ k s, map_input_to_cluster "Morning" "Calm" "Pop"
        [("0", ProfileVal.plist ["pop"])] = Except.ok (some k, s)
      ∧ (∃ v, (k, v) ∈ [("0", ProfileVal.plist ["pop"])])
      ∧ 0 ≤ s ∧ s ≤ ((userTokens "Morning" "Calm" "Pop").card : Int) :=
  c10_map_invariant "Morning" "Calm" "Pop" [("0", ProfileVal.plist ["pop"])]
    (by decide) (by decide)
